import Mathlib

/-!
Verification of the NotebookLM FoldNest sync module (`src/sync.js`).

The development is a shallow embedding of the sync layer: the module's
process-wide mutable state (settings, flags, offline queue, local storage,
remote Drive store, clock) is a `ModuleState` record, external collaborators
(the token broker, the Drive network, the `window.NotebookLMFoldNest` API)
are an `Env` of oracles, and each source function becomes a Lean function
from state and environment to a result, an updated state, and a trace of
observable events.  Wall-clock time is the `now` field; every `Date.now()`
call inside one operation reads this single instant, matching a pass that
runs quickly relative to the clock.  JavaScript numbers are modelled as
`Nat` (timestamps are non-negative millisecond epochs; the one subtraction,
the cooldown test `now - lastSyncAttempt < 5000`, agrees with truncated
subtraction because a negative JS difference and a truncated-to-zero Nat
difference both satisfy the `< 5000` test).
-/

/-- Envelope attached to synced documents (`_syncMeta` in `sync.js`). -/
structure SyncMeta where
  lastModified : Nat
  version : String
deriving DecidableEq, Repr

/-- A syncable JSON document: an opaque payload plus the optional
`_syncMeta` envelope.  The spread `{...content, _syncMeta: {...}}` in
`uploadFile` preserves the payload and replaces the envelope. -/
structure Doc where
  payload : String
  syncMeta : Option SyncMeta
deriving DecidableEq, Repr

/-- The two logical document types (`'notebook'` / `'dashboard'`). -/
inductive DocType
  | notebook
  | dashboard
deriving DecidableEq, Repr

/-- An offline-queue entry: `{type, state, timestamp}` in
`queueOfflineOperation`. -/
structure QueueEntry where
  type : DocType
  state : Doc
  timestamp : Nat
deriving DecidableEq, Repr

/-- `syncSettings` record of `sync.js`. -/
structure SyncSettings where
  enabled : Bool
  lastSyncTime : Option Nat
  autoSync : Bool
deriving DecidableEq, Repr

/-- `SYNC_COOLDOWN_MS` from `sync.js`. -/
def SYNC_COOLDOWN_MS : Nat := 5000

/-- Version string stamped into uploaded envelopes. -/
def SYNC_VERSION : String := "1.0.0"

/-- `queueOfflineOperation(type, state)` (sync.js lines 82-95): removes
every existing entry of the same type, then appends a fresh entry stamped
with the current clock. -/
def queueOfflineOperation (q : List QueueEntry) (t : DocType) (d : Doc)
    (now : Nat) : List QueueEntry :=
  q.filter (fun op => op.type != t) ++ [⟨t, d, now⟩]

/-- At most one pending queue entry per document type. -/
def atMostOnePerType (q : List QueueEntry) : Prop :=
  ∀ t : DocType, (q.filter (fun op => op.type == t)).length ≤ 1

/-- Filtering a type `t'` out of a queue already purged of a different
type `t` is the same as filtering `t'` out of the original queue. -/
theorem filter_ne_filter_eq (q : List QueueEntry) (t t' : DocType)
    (h : t' ≠ t) :
    ((q.filter (fun op => op.type != t)).filter (fun op => op.type == t'))
      = q.filter (fun op => op.type == t') := by
  induction q with
  | nil => simp
  | cons op rest ih =>
    by_cases h1 : op.type = t'
    · have h2 : op.type ≠ t := by rw [h1]; exact h
      simp [List.filter_cons, h1, h2, ih, h, Ne.symm h]
    · by_cases h2 : op.type = t
      · simp [List.filter_cons, h1, h2, ih, h, Ne.symm h]
      · simp [List.filter_cons, h1, h2, ih, h, Ne.symm h]

/-- C7: `enqueue(type, state)` leaves exactly one entry of the enqueued
type, carrying the state (and clock stamp) of the latest call; entries of
every other type are untouched; and the at-most-one-entry-per-type
invariant is preserved. -/
theorem queueOfflineOperation_dedup (q : List QueueEntry) (t : DocType)
    (d : Doc) (now : Nat) :
    ((queueOfflineOperation q t d now).filter (fun op => op.type == t))
        = [⟨t, d, now⟩] ∧
    ((queueOfflineOperation q t d now).filter (fun op => op.type != t))
        = q.filter (fun op => op.type != t) ∧
    (atMostOnePerType q → atMostOnePerType (queueOfflineOperation q t d now)) := by
  refine ⟨?_, ?_, ?_⟩
  · rw [queueOfflineOperation, List.filter_append]
    have h1 : ((q.filter (fun op => op.type != t)).filter
        (fun op => op.type == t)) = [] := by
      rw [List.filter_filter]
      apply List.filter_eq_nil_iff.mpr
      intro op _
      by_cases h : op.type = t <;> simp [h]
    rw [h1]
    simp
  · rw [queueOfflineOperation, List.filter_append]
    have h1 : ((q.filter (fun op => op.type != t)).filter
        (fun op => op.type != t)) = q.filter (fun op => op.type != t) := by
      rw [List.filter_filter]
      congr 1
      funext op
      by_cases h : op.type = t <;> simp [h]
    rw [h1]
    simp
  · intro hq t'
    by_cases h : t' = t
    · subst h
      rw [queueOfflineOperation, List.filter_append]
      have h1 : ((q.filter (fun op => op.type != t')).filter
          (fun op => op.type == t')) = [] := by
        rw [List.filter_filter]
        apply List.filter_eq_nil_iff.mpr
        intro op _
        by_cases h : op.type = t' <;> simp [h]
      rw [h1]
      simp
    · rw [queueOfflineOperation, List.filter_append]
      rw [filter_ne_filter_eq q t t' h]
      have h2 : (([⟨t, d, now⟩] : List QueueEntry).filter
          (fun op => op.type == t')) = [] := by
        simp [List.filter_cons, Ne.symm h]
      rw [h2, List.append_nil]
      exact hq t'

/-! ## Authentication layer

`getAuthToken` / `makeAuthenticatedRequest` (sync.js lines 247-354).
The privileged broker (`chrome.runtime.sendMessage` to `background.js`,
which forwards the `interactive` flag verbatim to
`chrome.identity.getAuthToken`) is an oracle `Bool → Option String` from
the requested interactive flag to the token it yields (`none` = failure).
The network is an oracle `String → Bool → Nat` from the bearer token and
the `isRetry` flag of the attempt to the HTTP status of the response. -/

/-- Result of `makeAuthenticatedRequest`: a returned `Response` with its
status, or one of the two thrown errors (`NO_TOKEN`, `FORBIDDEN`). -/
inductive ReqResult
  | response (status : Nat)
  | noToken
  | forbidden
deriving DecidableEq, Repr

/-- Observable outcome of a `makeAuthenticatedRequest` run: final result,
cached token afterwards, the interactive flags of every broker request
issued, and every network fetch (token used, `isRetry` flag). -/
structure ReqOutcome where
  result : ReqResult
  cachedAfter : Option String
  brokerReqs : List Bool
  fetches : List (String × Bool)
deriving DecidableEq, Repr

/-- `getAuthToken(interactive)` (sync.js lines 247-288): returns the
cached token when one exists and `interactive` is false; otherwise asks
the broker, caching the token on success and clearing the cache on
failure.  Returns the token, the new cache, and the broker requests
issued. -/
def getAuthToken (broker : Bool → Option String) (cached : Option String)
    (interactive : Bool) : Option String × Option String × List Bool :=
  match cached, interactive with
  | some tok, false => (some tok, some tok, [])
  | _, _ =>
    match broker interactive with
    | some tok => (some tok, some tok, [interactive])
    | none => (none, none, [interactive])

/-- The `isRetry = true` tail of `makeAuthenticatedRequest`: obtains a
token with `getAuthToken(isRetry)` — i.e. `interactive = true` — performs
the fetch, and returns the response without any further 401 handling
(the `status === 401 && !isRetry` guard is false on a retry); a 403 still
throws `FORBIDDEN`. -/
def makeAuthenticatedRequestRetry (broker : Bool → Option String)
    (fetchStatus : String → Bool → Nat) (cached : Option String) :
    ReqOutcome :=
  match getAuthToken broker cached true with
  | (none, cached', breqs) => ⟨.noToken, cached', breqs, []⟩
  | (some tok, cached', breqs) =>
    let st := fetchStatus tok true
    if st = 403 then ⟨.forbidden, cached', breqs, [(tok, true)]⟩
    else ⟨.response st, cached', breqs, [(tok, true)]⟩

/-- `makeAuthenticatedRequest(url, options)` at its default
`isRetry = false` (sync.js lines 312-354): obtains a token
non-interactively, fetches, and on a 401 revokes the cached token and
retries exactly once via the `isRetry = true` path; a 403 throws
`FORBIDDEN`; any other status is returned to the caller. -/
def makeAuthenticatedRequest (broker : Bool → Option String)
    (fetchStatus : String → Bool → Nat) (cached : Option String) :
    ReqOutcome :=
  match getAuthToken broker cached false with
  | (none, cached', breqs) => ⟨.noToken, cached', breqs, []⟩
  | (some tok, cached', breqs) =>
    let st := fetchStatus tok false
    if st = 401 then
      -- revokeAuthToken(): clears the cache (and has the broker revoke)
      let r := makeAuthenticatedRequestRetry broker fetchStatus none
      ⟨r.result, r.cachedAfter, breqs ++ r.brokerReqs, (tok, false) :: r.fetches⟩
    else if st = 403 then ⟨.forbidden, cached', breqs, [(tok, false)]⟩
    else ⟨.response st, cached', breqs, [(tok, false)]⟩

/-- C5: a 401 response invalidates the cached token and the request is
retried exactly once with a token freshly obtained after invalidation; a
second 401 is returned to the caller as the final response rather than
retried; and no run of the helper ever issues more than two fetches. -/
theorem makeAuthenticatedRequest_retry_once (broker : Bool → Option String)
    (fetchStatus : String → Bool → Nat) (cached : Option String) :
    (makeAuthenticatedRequest broker fetchStatus cached).fetches.length ≤ 2 ∧
    (∀ t0 c0 b0, getAuthToken broker cached false = (some t0, c0, b0) →
      fetchStatus t0 false = 401 →
      ((∀ t1, broker true = some t1 →
          (makeAuthenticatedRequest broker fetchStatus cached).fetches
            = [(t0, false), (t1, true)] ∧
          (fetchStatus t1 true = 401 →
            (makeAuthenticatedRequest broker fetchStatus cached).result
              = .response 401)) ∧
        (broker true = none →
          (makeAuthenticatedRequest broker fetchStatus cached).fetches
            = [(t0, false)] ∧
          (makeAuthenticatedRequest broker fetchStatus cached).result
            = .noToken))) := by
  constructor
  · rw [makeAuthenticatedRequest]
    rcases hga : getAuthToken broker cached false with ⟨tk, c0, b0⟩
    match tk with
    | none => simp
    | some t0 =>
      simp only []
      by_cases h401 : fetchStatus t0 false = 401
      · rw [makeAuthenticatedRequestRetry]
        rcases hga2 : getAuthToken broker none true with ⟨tk2, c2, b2⟩
        match tk2 with
        | none => simp [h401]
        | some t1 =>
          by_cases h403 : fetchStatus t1 true = 403 <;>
            simp [h401, h403]
      · by_cases h403 : fetchStatus t0 false = 403 <;> simp [h401, h403]
  · intro t0 c0 b0 hga h401
    constructor
    · intro t1 hb1
      have hga2 : getAuthToken broker none true = (some t1, some t1, [true]) := by
        simp [getAuthToken, hb1]
      rw [makeAuthenticatedRequest, hga]
      simp only [h401, if_pos rfl]
      rw [makeAuthenticatedRequestRetry, hga2]
      constructor
      · by_cases h403 : fetchStatus t1 true = 403 <;> simp [h403]
      · intro h401b
        have h403 : ¬ fetchStatus t1 true = 403 := by rw [h401b]; decide
        simp [h403, h401b]
    · intro hb1
      have hga2 : getAuthToken broker none true = (none, none, [true]) := by
        simp [getAuthToken, hb1]
      rw [makeAuthenticatedRequest, hga]
      simp only [h401, if_pos rfl]
      rw [makeAuthenticatedRequestRetry, hga2]
      simp

/-- C5 witness: a concrete run in which the first response is 401 and the
retry's also is: two fetches, final result is the 401 response. -/
theorem makeAuthenticatedRequest_retry_once_witness :
    (makeAuthenticatedRequest (fun _ => some "fresh") (fun _ _ => 401)
        (some "stale")).fetches.length ≤ 2 ∧
    (makeAuthenticatedRequest (fun _ => some "fresh") (fun _ _ => 401)
        (some "stale")).fetches = [("stale", false), ("fresh", true)] ∧
    (makeAuthenticatedRequest (fun _ => some "fresh") (fun _ _ => 401)
        (some "stale")).result = .response 401 := by
  have h := makeAuthenticatedRequest_retry_once (fun _ => some "fresh")
    (fun _ _ => 401) (some "stale")
  refine ⟨h.1, ?_⟩
  have h2 := (h.2 "stale" (some "stale") [] rfl rfl).1 "fresh" rfl
  exact ⟨h2.1, h2.2 rfl⟩

/-- C6 counterexample: the claim says the retry path never requests a
token in interactive mode; in this concrete run (cached token, first
fetch 401) the single broker request of the retry carries
`interactive = true`. -/
theorem makeAuthenticatedRequest_retry_interactive_cex :
    (makeAuthenticatedRequest (fun _ => some "fresh")
        (fun _ isRetry => if isRetry then 200 else 401)
        (some "stale")).brokerReqs = [true] := by
  decide

/-- C6 amended: when the first fetch returns 401, the retry obtains its
fresh token through a broker request made in interactive mode (the
`isRetry` flag is forwarded to `getAuthToken` as the `interactive` flag),
after the cache has been invalidated — so the token is fresh, but the
request may prompt the user for consent. -/
theorem makeAuthenticatedRequest_retry_amended (broker : Bool → Option String)
    (fetchStatus : String → Bool → Nat) (cached : Option String)
    (t0 : String) (c0 : Option String) (b0 : List Bool)
    (hga : getAuthToken broker cached false = (some t0, c0, b0))
    (h401 : fetchStatus t0 false = 401) :
    (makeAuthenticatedRequest broker fetchStatus cached).brokerReqs
      = b0 ++ [true] ∧
    (∀ t1, broker true = some t1 →
      (makeAuthenticatedRequest broker fetchStatus cached).fetches
        = [(t0, false), (t1, true)]) := by
  rw [makeAuthenticatedRequest, hga]
  simp only [h401, if_pos rfl]
  rcases hbt : broker true with _ | t1
  · have hga2 : getAuthToken broker none true = (none, none, [true]) := by
      simp [getAuthToken, hbt]
    rw [makeAuthenticatedRequestRetry, hga2]
    simp [hbt]
  · have hga2 : getAuthToken broker none true = (some t1, some t1, [true]) := by
      simp [getAuthToken, hbt]
    rw [makeAuthenticatedRequestRetry, hga2]
    constructor
    · by_cases h403 : fetchStatus t1 true = 403 <;> simp [h403]
    · intro t1' ht1'
      have heq : t1 = t1' := Option.some.inj ht1'
      subst heq
      by_cases h403 : fetchStatus t1 true = 403 <;> simp [h403]

/-- C6 amended witness: the concrete 401 run in which the retry's broker
request list is exactly one interactive request and the retry fetch uses
the broker's fresh token. -/
theorem makeAuthenticatedRequest_retry_amended_witness :
    (makeAuthenticatedRequest (fun _ => some "fresh")
        (fun _ isRetry => if isRetry then 200 else 401)
        (some "stale")).brokerReqs = [] ++ [true] ∧
    (makeAuthenticatedRequest (fun _ => some "fresh")
        (fun _ isRetry => if isRetry then 200 else 401)
        (some "stale")).fetches = [("stale", false), ("fresh", true)] := by
  have h := makeAuthenticatedRequest_retry_amended (fun _ => some "fresh")
    (fun _ isRetry => if isRetry then 200 else 401) (some "stale")
    "stale" (some "stale") [] rfl rfl
  exact ⟨h.1, h.2 "fresh" rfl⟩

/-! ## Sync operations

The module-level state of `sync.js` plus the browser-local storage and the
remote Drive store it reads and writes, and the event-level embedding of
the sync operations.  The Drive file names map one-to-one onto the two
`DocType`s (the dashboard file name is fixed; the notebook file name is
derived from the current notebook id, which is constant during a pass), so
both stores are indexed by `DocType`. -/

/-- Outcome of the external `api.applyState(data, type)` callback: applied
(returned truthy), not applied (returned falsy), or threw. -/
inductive ApplyOutcome
  | applied
  | notApplied
  | thrown
deriving DecidableEq, Repr

/-- The status values of `updateSyncStatus`. -/
inductive SyncStatus
  | idle
  | syncing
  | success
  | error
  | offline
deriving DecidableEq, Repr

/-- Observable events of one sync operation.  `netFind`, `netDownload` and
`netUpload` are network requests against the Drive API; `applyLocal` is an
invocation of the UI layer's `applyState` callback; `setStorage` is a
direct overwrite of the local document in `chrome.storage.local`;
`enqueued` is an offline-queue insertion; `reload` is the page-reload
fallback. -/
inductive SyncEvent
  | netFind (t : DocType)
  | netDownload (t : DocType)
  | netUpload (t : DocType) (content : Doc)
  | applyLocal (t : DocType) (d : Doc)
  | setStorage (t : DocType) (d : Doc)
  | enqueued (t : DocType) (d : Doc)
  | reload
deriving DecidableEq, Repr

/-- Whether an event is a network request. -/
def SyncEvent.isNet : SyncEvent → Bool
  | .netFind _ => true
  | .netDownload _ => true
  | .netUpload _ _ => true
  | _ => false

/-- The process-wide state of the sync module together with the stores it
touches: the module globals of `sync.js`, the two local documents in
`chrome.storage.local`, the two remote documents in the Drive appdata
folder, the page context, and the clock. -/
structure ModuleState where
  syncSettings : SyncSettings
  persistedSettings : SyncSettings
  isSyncing : Bool
  lastSyncAttempt : Nat
  isOnline : Bool
  cachedToken : Option String
  offlineQueue : List QueueEntry
  localDashboard : Option Doc
  localNotebook : Option Doc
  remoteDashboard : Option Doc
  remoteNotebook : Option Doc
  onNotebookPage : Bool
  now : Nat
  status : SyncStatus
  statusMsg : String
deriving DecidableEq, Repr

/-- The external collaborators of one pass: extension-context validity,
the token broker, the `window.NotebookLMFoldNest` API
(presence, `getState()` result, `applyState` availability and outcomes),
and transport-failure oracles for the three Drive calls.
`stateReadThrows` models a thrown local-state read
(`chrome.storage.local.get` / `api.getState()`) inside `uploadState`'s
`try` block — the exception path its `catch`/`finally` handles. -/
structure Env where
  contextValid : Bool
  broker : Bool → Option String
  apiPresent : Bool
  getStateResult : Option Doc
  applyStateAvail : Bool
  applyDashboard : ApplyOutcome
  applyNotebook : ApplyOutcome
  findFailsDashboard : Bool
  findFailsNotebook : Bool
  downloadFailsDashboard : Bool
  downloadFailsNotebook : Bool
  uploadFailsDashboard : Bool
  uploadFailsNotebook : Bool
  stateReadThrows : Bool

/-- Transport failure of the find-by-name call, per document type. -/
def Env.findFails (env : Env) : DocType → Bool
  | .dashboard => env.findFailsDashboard
  | .notebook => env.findFailsNotebook

/-- Transport failure of the download call, per document type. -/
def Env.downloadFails (env : Env) : DocType → Bool
  | .dashboard => env.downloadFailsDashboard
  | .notebook => env.downloadFailsNotebook

/-- Transport failure of the upload call, per document type. -/
def Env.uploadFails (env : Env) : DocType → Bool
  | .dashboard => env.uploadFailsDashboard
  | .notebook => env.uploadFailsNotebook

/-- The remote document stored under the file name of a document type. -/
def ModuleState.getRemote (s : ModuleState) : DocType → Option Doc
  | .dashboard => s.remoteDashboard
  | .notebook => s.remoteNotebook

/-- Replace the remote document of a document type. -/
def ModuleState.setRemote (s : ModuleState) (t : DocType) (d : Option Doc) :
    ModuleState :=
  match t with
  | .dashboard => { s with remoteDashboard := d }
  | .notebook => { s with remoteNotebook := d }

/-- `lastModified || 0` extraction from an optional envelope. -/
def metaTime : Option SyncMeta → Nat
  | some m => m.lastModified
  | none => 0

/-- `state?._syncMeta?.lastModified || 0`: the envelope time of an
optional document. -/
def envelopeTime : Option Doc → Nat
  | some d => metaTime d.syncMeta
  | none => 0

/-- The state gathered by `uploadState`'s offline branch (sync.js lines
490-499): the stored dashboard document, or the live `api.getState()`
result when the API is present. -/
def offlineLocalState (s : ModuleState) (env : Env) : DocType → Option Doc
  | .dashboard => s.localDashboard
  | .notebook => if env.apiPresent then env.getStateResult else none

/-- `findFile(fileName)` (sync.js lines 363-395): one authenticated
network query; reports whether a handle was found (errors are swallowed
into a not-found result). -/
def findFile (s : ModuleState) (env : Env) (t : DocType) :
    Bool × List SyncEvent :=
  (if env.findFails t then false else (s.getRemote t).isSome, [.netFind t])

/-- `downloadFile(fileId)` (sync.js lines 402-415): one authenticated
network download; errors are swallowed into `null`. -/
def downloadFile (s : ModuleState) (env : Env) (t : DocType) :
    Option Doc × List SyncEvent :=
  (if env.downloadFails t then none else s.getRemote t, [.netDownload t])

/-- The `contentWithMeta` wrapper built inside `uploadFile` (sync.js lines
436-442): spreads the caller's content and sets `_syncMeta` to a fresh
envelope stamped with the current clock, replacing any envelope the
content carried. -/
def addSyncMeta (content : Doc) (now : Nat) : Doc :=
  { payload := content.payload,
    syncMeta := some { lastModified := now, version := SYNC_VERSION } }

/-- `uploadFile(fileName, content, existingFileId)` (sync.js lines
424-466): one authenticated multipart upload of the stamped content;
creates or replaces depending on the handle (both store the same content);
errors are swallowed into `false`. -/
def uploadFile (s : ModuleState) (env : Env) (t : DocType) (content : Doc) :
    Bool × ModuleState × List SyncEvent :=
  let stamped := addSyncMeta content s.now
  if env.uploadFails t then (false, s, [.netUpload t stamped])
  else (true, s.setRemote t (some stamped), [.netUpload t stamped])

/-- `saveSyncSettings()` (sync.js lines 778-784): persists the in-memory
settings, unless the extension context has been invalidated. -/
def saveSyncSettings (s : ModuleState) (env : Env) : ModuleState :=
  if env.contextValid then { s with persistedSettings := s.syncSettings }
  else s

/-- Tail of `uploadState` shared by both document types once a non-null
state and file name are in hand: find the existing handle, upload, and on
success record the sync time and persist the settings; on failure report
`error`.  The `finally` clears `isSyncing` on every path. -/
def uploadStateCore (s : ModuleState) (env : Env) (t : DocType) (st : Doc) :
    Bool × ModuleState × List SyncEvent :=
  let (_, ev1) := findFile s env t
  let (ok, s2, ev2) := uploadFile s env t st
  if ok then
    let s3 := { s2 with
      syncSettings := { s2.syncSettings with lastSyncTime := some s2.now } }
    let s4 := saveSyncSettings s3 env
    (true, { s4 with status := .success, statusMsg := "",
                     isSyncing := false }, ev1 ++ ev2)
  else
    (false, { s2 with status := .error, statusMsg := "Upload failed",
                      isSyncing := false }, ev1 ++ ev2)

/-- `uploadState(type)` (sync.js lines 475-573).  Guards: disabled or
already syncing, then the 5s cooldown.  Inside the `try`: mark syncing;
when offline, gather the state and queue it instead of touching the
network, reporting `offline`; when online, resolve the state and file
name (bailing out to `idle` when the API, the notebook URL, or the state
is missing), then find-and-upload.  The `catch` converts a thrown state
read into a `false` return with status `error`; the `finally` clears
`isSyncing`. -/
def uploadState (s : ModuleState) (env : Env) (t : DocType) :
    Bool × ModuleState × List SyncEvent :=
  if ¬s.syncSettings.enabled ∨ s.isSyncing then (false, s, [])
  else if s.now - s.lastSyncAttempt < SYNC_COOLDOWN_MS then (false, s, [])
  else
    let s1 := { s with isSyncing := true, lastSyncAttempt := s.now,
                       status := .syncing, statusMsg := "" }
    if env.stateReadThrows then
      (false, { s1 with status := .error, statusMsg := "error",
                        isSyncing := false }, [])
    else if ¬s1.isOnline then
      match offlineLocalState s1 env t with
      | some st =>
        (false, { s1 with
          offlineQueue := queueOfflineOperation s1.offlineQueue t st s1.now,
          status := .offline, statusMsg := "Queued for later",
          isSyncing := false }, [.enqueued t st])
      | none =>
        (false, { s1 with status := .offline, statusMsg := "Queued for later",
                          isSyncing := false }, [])
    else
      match t with
      | .dashboard =>
        match s1.localDashboard with
        | none => (false, { s1 with status := .idle, statusMsg := "",
                                    isSyncing := false }, [])
        | some st => uploadStateCore s1 env .dashboard st
      | .notebook =>
        if ¬env.apiPresent then
          (false, { s1 with status := .idle, statusMsg := "",
                            isSyncing := false }, [])
        else if ¬s1.onNotebookPage then
          (false, { s1 with status := .idle, statusMsg := "",
                            isSyncing := false }, [])
        else
          match env.getStateResult with
          | none => (false, { s1 with status := .idle, statusMsg := "",
                                      isSyncing := false }, [])
          | some st => uploadStateCore s1 env .notebook st

/-- `downloadState(type)` (sync.js lines 580-635).  Guards: disabled or
already syncing.  Inside the `try`: mark syncing; offline reports
`offline` and returns `null`; a missing notebook URL reports `idle`; a
missing remote handle reports `idle`; a failed download reports `error`;
otherwise the full content is returned together with its extracted
`_syncMeta`.  The `finally` clears `isSyncing` on every path. -/
def downloadState (s : ModuleState) (env : Env) (t : DocType) :
    Option (Doc × Option SyncMeta) × ModuleState × List SyncEvent :=
  if ¬s.syncSettings.enabled ∨ s.isSyncing then (none, s, [])
  else
    let s1 := { s with isSyncing := true, status := .syncing,
                       statusMsg := "" }
    if ¬s1.isOnline then
      (none, { s1 with status := .offline,
                       statusMsg := "No internet connection",
                       isSyncing := false }, [])
    else if t = .notebook ∧ ¬s1.onNotebookPage then
      (none, { s1 with status := .idle, statusMsg := "",
                       isSyncing := false }, [])
    else
      let (found, ev1) := findFile s1 env t
      if ¬found then
        (none, { s1 with status := .idle, statusMsg := "",
                         isSyncing := false }, ev1)
      else
        match downloadFile s1 env t with
        | (none, ev2) =>
          (none, { s1 with status := .error, statusMsg := "Download failed",
                           isSyncing := false }, ev1 ++ ev2)
        | (some content, ev2) =>
          (some (content, content.syncMeta),
           { s1 with status := .success, statusMsg := "",
                     isSyncing := false }, ev1 ++ ev2)

/-- The replay loop of `processOfflineQueue` (sync.js lines 111-120):
each snapshot entry is replayed by `uploadState(op.type)` — the entry's
captured `state` is not passed.  A re-queue happens only when
`uploadState` throws, and `uploadState` resolves `false` instead of
throwing on every failure path, so no entry is ever re-queued. -/
def replayLoop (env : Env) : ModuleState → List QueueEntry →
    ModuleState × List SyncEvent
  | s, [] => (s, [])
  | s, op :: rest =>
    let (_, s', evs) := uploadState s env op.type
    let (s'', evs') := replayLoop env s' rest
    (s'', evs ++ evs')

/-- `processOfflineQueue()` (sync.js lines 100-130): bail out when the
queue is empty or sync is disabled; otherwise snapshot the queue, clear
it, and replay every snapshot entry. -/
def processOfflineQueue (s : ModuleState) (env : Env) :
    ModuleState × List SyncEvent :=
  if s.offlineQueue.isEmpty ∨ ¬s.syncSettings.enabled then (s, [])
  else replayLoop env { s with offlineQueue := [] } s.offlineQueue

/-- Control-flow outcome of one document's reconciliation step inside
`performFullSync`: continue the pass, return early from the whole pass
with a result, or propagate a thrown exception to the pass's `catch`. -/
inductive StepResult
  | cont (s : ModuleState) (evs : List SyncEvent)
  | early (r : Bool) (s : ModuleState) (evs : List SyncEvent)
  | thrown (s : ModuleState) (evs : List SyncEvent)
deriving Repr

/-- The dashboard half of `performFullSync` (sync.js lines 654-685): when
a remote dashboard was downloaded and its envelope is strictly newer than
the local one, apply it in place via `api.applyState` when available
(falling back to a direct storage overwrite when the callback is absent
or returns falsy); otherwise do nothing — the source has no branch that
uploads a locally-newer dashboard. -/
def dashReconcile (s : ModuleState) (env : Env)
    (dres : Option (Doc × Option SyncMeta)) : StepResult :=
  match dres with
  | none => .cont s []
  | some (data, meta) =>
    if metaTime meta > envelopeTime s.localDashboard then
      if env.apiPresent ∧ env.applyStateAvail then
        match env.applyDashboard with
        | .applied => .cont s [.applyLocal .dashboard data]
        | .notApplied =>
          .cont { s with localDashboard := some data }
            [.applyLocal .dashboard data, .setStorage .dashboard data]
        | .thrown => .thrown s [.applyLocal .dashboard data]
      else
        .cont { s with localDashboard := some data }
          [.setStorage .dashboard data]
    else .cont s []

/-- The notebook half of `performFullSync` (sync.js lines 687-744):
remote strictly newer applies in place (re-checking context validity
first, and falling back to storage-overwrite-plus-reload, which returns
`true` early); local strictly newer uploads via `uploadState('notebook')`;
equal envelopes do nothing. -/
def nbReconcile (s : ModuleState) (env : Env)
    (nres : Option (Doc × Option SyncMeta)) : StepResult :=
  match nres with
  | none => .cont s []
  | some (data, meta) =>
    if metaTime meta > envelopeTime s.localNotebook then
      if ¬env.contextValid then .early false s []
      else if env.apiPresent ∧ env.applyStateAvail then
        match env.applyNotebook with
        | .applied =>
          .cont { s with localNotebook := some data }
            [.applyLocal .notebook data, .setStorage .notebook data]
        | .notApplied =>
          .early true { s with localNotebook := some data }
            [.applyLocal .notebook data, .setStorage .notebook data,
             .reload]
        | .thrown => .thrown s [.applyLocal .notebook data]
      else
        .early true { s with localNotebook := some data }
          [.setStorage .notebook data, .reload]
    else if envelopeTime s.localNotebook > metaTime meta then
      let (_, s', evs) := uploadState s env .notebook
      .cont s' evs
    else .cont s []

/-- End of a completed `performFullSync` pass (sync.js lines 746-749):
record the sync time, persist the settings, report `success`, return
`true`. -/
def fullSyncFinish (s : ModuleState) (env : Env) (evs : List SyncEvent) :
    Bool × ModuleState × List SyncEvent :=
  let s1 := { s with
    syncSettings := { s.syncSettings with lastSyncTime := some s.now } }
  let s2 := saveSyncSettings s1 env
  (true, { s2 with status := .success, statusMsg := "" }, evs)

/-- `performFullSync()` (sync.js lines 641-755): bail out when disabled or
when the extension context is invalidated; otherwise download and
reconcile the dashboard document, then — only when on a notebook page —
download and reconcile the notebook document, then finish.  A thrown
reconciliation lands in the `catch`: status `error`, return `false`. -/
def performFullSync (s : ModuleState) (env : Env) :
    Bool × ModuleState × List SyncEvent :=
  if ¬s.syncSettings.enabled then (false, s, [])
  else if ¬env.contextValid then (false, s, [])
  else
    let s1 := { s with status := .syncing, statusMsg := "" }
    let (dres, s2, evA) := downloadState s1 env .dashboard
    match dashReconcile s2 env dres with
    | .thrown s3 evB =>
      (false, { s3 with status := .error, statusMsg := "error" },
       evA ++ evB)
    | .early r s3 evB => (r, s3, evA ++ evB)
    | .cont s3 evB =>
      if s3.onNotebookPage then
        let (nres, s4, evC) := downloadState s3 env .notebook
        match nbReconcile s4 env nres with
        | .thrown s5 evD =>
          (false, { s5 with status := .error, statusMsg := "error" },
           evA ++ evB ++ evC ++ evD)
        | .early r s5 evD => (r, s5, evA ++ evB ++ evC ++ evD)
        | .cont s5 evD => fullSyncFinish s5 env (evA ++ evB ++ evC ++ evD)
      else fullSyncFinish s3 env (evA ++ evB)

/-- `enableSync()` (sync.js lines 790-826): request a token interactively
(bypassing the cache); on failure report `error` and stay disabled; on
success set and persist `enabled = true`, then run the initial full sync —
whose own result is not consulted — and return `true`. -/
def enableSync (s : ModuleState) (env : Env) :
    Bool × ModuleState × List SyncEvent :=
  let s1 := { s with status := .syncing, statusMsg := "" }
  match env.broker true with
  | none =>
    (false, { s1 with cachedToken := none, status := .error,
                      statusMsg := "Authentication failed" }, [])
  | some tok =>
    let s2 := { s1 with cachedToken := some tok }
    let s3 := { s2 with
      syncSettings := { s2.syncSettings with enabled := true } }
    let s4 := saveSyncSettings s3 env
    let r := performFullSync s4 env
    (true, r.2.1, r.2.2)

/-! ## Concrete fixtures

Closed states and environments used by the counterexamples and witnesses
below. -/

/-- A document whose envelope the owning layer stamped at time 100. -/
def docOwner : Doc := ⟨"owner", some ⟨100, "1.0.0"⟩⟩

/-- Happy-path environment: valid context, cooperative broker, API
present with a live notebook state, in-place apply succeeding, no
transport failures. -/
def envBase : Env :=
  { contextValid := true
    broker := fun _ => some "tok"
    apiPresent := true
    getStateResult := some ⟨"live", some ⟨400, "1.0.0"⟩⟩
    applyStateAvail := true
    applyDashboard := .applied
    applyNotebook := .applied
    findFailsDashboard := false
    findFailsNotebook := false
    downloadFailsDashboard := false
    downloadFailsNotebook := false
    uploadFailsDashboard := false
    uploadFailsNotebook := false
    stateReadThrows := false }

/-- Baseline module state: sync enabled, online, idle, empty queue, the
owner-stamped dashboard document in local storage, clock at 100000 (well
past the cooldown). -/
def sBase : ModuleState :=
  { syncSettings := ⟨true, none, true⟩
    persistedSettings := ⟨true, none, true⟩
    isSyncing := false
    lastSyncAttempt := 0
    isOnline := true
    cachedToken := none
    offlineQueue := []
    localDashboard := some docOwner
    localNotebook := none
    remoteDashboard := none
    remoteNotebook := none
    onNotebookPage := false
    now := 100000
    status := .idle
    statusMsg := "" }

instance : Fintype DocType :=
  ⟨⟨{.notebook, .dashboard}, by decide⟩, by intro x; cases x <;> decide⟩

instance (q : List QueueEntry) : Decidable (atMostOnePerType q) := by
  unfold atMostOnePerType
  infer_instance

/-- C7 witness: the dedup contract applied at a concrete queue holding one
dashboard entry, enqueuing a notebook entry. -/
theorem queueOfflineOperation_dedup_witness :
    ((queueOfflineOperation [⟨.dashboard, docOwner, 7⟩] .notebook docOwner 9).filter
        (fun op => op.type == .notebook)) = [⟨.notebook, docOwner, 9⟩] ∧
    ((queueOfflineOperation [⟨.dashboard, docOwner, 7⟩] .notebook docOwner 9).filter
        (fun op => op.type != .notebook)) = [⟨.dashboard, docOwner, 7⟩] ∧
    atMostOnePerType (queueOfflineOperation [⟨.dashboard, docOwner, 7⟩] .notebook docOwner 9) := by
  have h := queueOfflineOperation_dedup [⟨.dashboard, docOwner, 7⟩] .notebook docOwner 9
  exact ⟨h.1, by decide, h.2.2 (by decide)⟩

/-- Helper: `uploadStateCore` clears the `isSyncing` flag on both of its
exits. -/
theorem uploadStateCore_clears_isSyncing (s : ModuleState) (env : Env)
    (t : DocType) (st : Doc) :
    (uploadStateCore s env t st).2.1.isSyncing = false := by
  rw [uploadStateCore, uploadFile]
  split <;> simp [saveSyncSettings] <;> split <;> simp

/-- C10: starting from any state in which `isSyncing` is clear, every
completed invocation of `uploadState` or `downloadState` — early guard
exit, offline redirect, idle bail-out, success, failure, or the thrown
state read handled by the `catch` — leaves `isSyncing` clear again, so
the guard can never remain permanently set and block future operations. -/
theorem isSyncing_cleared (s : ModuleState) (env : Env)
    (h : s.isSyncing = false) :
    ∀ t : DocType, (uploadState s env t).2.1.isSyncing = false ∧
      (downloadState s env t).2.1.isSyncing = false := by
  intro t
  constructor
  · rw [uploadState]
    simp only []
    repeat' split
    all_goals first
      | simpa using h
      | rfl
      | exact uploadStateCore_clears_isSyncing _ _ _ _
  · rw [downloadState]
    simp only []
    repeat' split
    all_goals first
      | simpa using h
      | rfl

/-- C10 witness: the flag is clear after a concrete upload and a concrete
download from the baseline state. -/
theorem isSyncing_cleared_witness :
    (uploadState sBase envBase .dashboard).2.1.isSyncing = false ∧
    (downloadState sBase envBase .dashboard).2.1.isSyncing = false :=
  isSyncing_cleared sBase envBase (by decide) .dashboard

/-- Helper: characterization of `uploadStateCore` when the upload network
call succeeds. -/
theorem uploadStateCore_ok (s : ModuleState) (env : Env) (t : DocType)
    (st : Doc) (h : env.uploadFails t = false) :
    uploadStateCore s env t st =
      (true,
       { saveSyncSettings
           { s.setRemote t (some (addSyncMeta st s.now)) with
             syncSettings :=
               { s.syncSettings with lastSyncTime := some s.now } } env with
         status := .success, statusMsg := "", isSyncing := false },
       [.netFind t, .netUpload t (addSyncMeta st s.now)]) := by
  rw [uploadStateCore, uploadFile, findFile]
  cases t <;> simp_all [ModuleState.setRemote]

/-- Helper: characterization of `uploadStateCore` when the upload network
call fails. -/
theorem uploadStateCore_fail (s : ModuleState) (env : Env) (t : DocType)
    (st : Doc) (h : env.uploadFails t = true) :
    uploadStateCore s env t st =
      (false,
       { s with status := .error, statusMsg := "Upload failed",
                isSyncing := false },
       [.netFind t, .netUpload t (addSyncMeta st s.now)]) := by
  rw [uploadStateCore, uploadFile, findFile]
  simp [h]

/-- Helper: the trace of `uploadStateCore` is always one find followed by
one upload of the freshly stamped content. -/
theorem uploadStateCore_trace (s : ModuleState) (env : Env) (t : DocType)
    (st : Doc) :
    (uploadStateCore s env t st).2.2
      = [.netFind t, .netUpload t (addSyncMeta st s.now)] := by
  cases h : env.uploadFails t
  · rw [uploadStateCore_ok s env t st h]
  · rw [uploadStateCore_fail s env t st h]

/-- Helper: `uploadStateCore` never writes the local documents. -/
theorem uploadStateCore_preserves_local (s : ModuleState) (env : Env)
    (t : DocType) (st : Doc) :
    (uploadStateCore s env t st).2.1.localDashboard = s.localDashboard ∧
    (uploadStateCore s env t st).2.1.localNotebook = s.localNotebook := by
  cases h : env.uploadFails t
  · rw [uploadStateCore_ok s env t st h]
    cases t <;> simp [ModuleState.setRemote, saveSyncSettings] <;>
      split <;> simp
  · rw [uploadStateCore_fail s env t st h]
    exact ⟨rfl, rfl⟩

/-- C2 counterexample: the owning layer stamped the local dashboard
envelope at time 100, the upload happens at clock 100000, and the
document that goes over the wire carries the fresh envelope
`{lastModified: 100000}` — not the owner's: the claim that the uploaded
`_syncMeta` equals the owner's envelope is false at this input. -/
theorem uploadFile_restamps_envelope_cex :
    (uploadState sBase envBase .dashboard).2.2
      = [.netFind .dashboard,
         .netUpload .dashboard ⟨"owner", some ⟨100000, "1.0.0"⟩⟩] ∧
    docOwner.syncMeta = some ⟨100, "1.0.0"⟩ ∧
    some (⟨100000, "1.0.0"⟩ : SyncMeta) ≠ docOwner.syncMeta := by
  decide

/-- C2 amended: the sync layer is side-effect-free on the owner's local
envelope (neither local document is written by an upload), but it does
fabricate the uploaded envelope: every document that `uploadState` puts
on the wire carries `_syncMeta = {lastModified: Date.now() at upload
time, version: "1.0.0"}`, replacing whatever envelope the owning layer
had stamped. -/
theorem uploadState_upload_envelope_amended (s : ModuleState) (env : Env)
    (t : DocType) :
    (∀ t' c, SyncEvent.netUpload t' c ∈ (uploadState s env t).2.2 →
      c.syncMeta = some ⟨s.now, SYNC_VERSION⟩) ∧
    (uploadState s env t).2.1.localDashboard = s.localDashboard ∧
    (uploadState s env t).2.1.localNotebook = s.localNotebook := by
  refine ⟨?_, ?_⟩
  · intro t' c hmem
    rw [uploadState] at hmem
    simp only [] at hmem
    repeat' split at hmem
    all_goals simp_all [uploadStateCore_trace, addSyncMeta]
  · rw [uploadState]
    simp only []
    repeat' split
    all_goals first
      | exact ⟨rfl, rfl⟩
      | exact uploadStateCore_preserves_local _ _ _ _

/-- C2 amended witness: the concrete upload from the baseline state puts
the freshly stamped envelope on the wire and leaves the local dashboard
document untouched. -/
theorem uploadState_upload_envelope_amended_witness :
    (⟨"owner", some ⟨100000, "1.0.0"⟩⟩ : Doc).syncMeta
        = some ⟨100000, "1.0.0"⟩ ∧
    (uploadState sBase envBase .dashboard).2.1.localDashboard
        = sBase.localDashboard := by
  have h := uploadState_upload_envelope_amended sBase envBase .dashboard
  exact ⟨h.1 .dashboard ⟨"owner", some ⟨100000, "1.0.0"⟩⟩ (by decide),
         h.2.1⟩

/-- Queue fixture for the replay claims: one pending notebook entry whose
captured snapshot differs from the live state. -/
def sQueueFail : ModuleState :=
  { sBase with
    offlineQueue := [⟨.notebook, ⟨"snapshot", some ⟨50, "1.0.0"⟩⟩, 50⟩],
    onNotebookPage := true }

/-- Environment in which the notebook upload network call fails. -/
def envUploadFail : Env := { envBase with uploadFailsNotebook := true }

/-- C3: at the failing input — a queue of one notebook entry whose replay
upload fails with an HTTP error (`uploadFile` resolves `false`) — the
replay ends with an empty queue: the failed entry is dropped, not
re-enqueued, because the re-queue sits in a `catch` block that only runs
when `uploadState` throws, and `uploadState` converts every failure into
a `false` return.  The upload was attempted exactly once and reported
`error`, yet the queue no longer contains the entry. -/
theorem processOfflineQueue_drops_failed_entry :
    sQueueFail.offlineQueue.length = 1 ∧
    (processOfflineQueue sQueueFail envUploadFail).2
      = [.netFind .notebook,
         .netUpload .notebook ⟨"live", some ⟨100000, "1.0.0"⟩⟩] ∧
    (processOfflineQueue sQueueFail envUploadFail).1.status = .error ∧
    (processOfflineQueue sQueueFail envUploadFail).1.statusMsg
      = "Upload failed" ∧
    (processOfflineQueue sQueueFail envUploadFail).1.offlineQueue = [] := by
  decide

/-- C8: while offline, neither `uploadState` nor `downloadState` issues
any network request, on any path.  Under the operations' own entry guards
(enabled, not already syncing, cooldown passed, no thrown state read)
`uploadState` instead enqueues the gathered document in the offline queue
and returns `false` with status `offline`, and `downloadState` returns
`null` with status `offline`. -/
theorem offline_no_network (s : ModuleState) (env : Env)
    (h : s.isOnline = false) :
    (∀ t : DocType, ((uploadState s env t).2.2.filter SyncEvent.isNet) = [] ∧
      ((downloadState s env t).2.2.filter SyncEvent.isNet) = []) ∧
    (∀ t d, s.syncSettings.enabled = true → s.isSyncing = false →
      SYNC_COOLDOWN_MS ≤ s.now - s.lastSyncAttempt →
      env.stateReadThrows = false →
      offlineLocalState s env t = some d →
      (uploadState s env t).1 = false ∧
      (uploadState s env t).2.1.offlineQueue
        = queueOfflineOperation s.offlineQueue t d s.now ∧
      (uploadState s env t).2.1.status = .offline) ∧
    (∀ t : DocType, s.syncSettings.enabled = true → s.isSyncing = false →
      (downloadState s env t).1 = none ∧
      (downloadState s env t).2.1.status = .offline ∧
      (downloadState s env t).2.1.statusMsg = "No internet connection") := by
  refine ⟨?_, ?_, ?_⟩
  · intro t
    constructor
    · rw [uploadState]
      simp only []
      repeat' split
      all_goals simp_all [SyncEvent.isNet]
    · rw [downloadState]
      simp only []
      repeat' split
      all_goals simp_all [SyncEvent.isNet]
  · intro t d hen hsy hcd hsr hst
    have hcd' : ¬(s.now - s.lastSyncAttempt < SYNC_COOLDOWN_MS) :=
      not_lt.mpr hcd
    cases t
    all_goals (
      simp only [offlineLocalState] at hst
      rw [uploadState]
      simp only [hen, hsy, hsr, h, hcd', offlineLocalState]
      simp [hst])
  · intro t hen hsy
    rw [downloadState]
    simp only [hen, hsy, h]
    simp

/-- Offline variant of the baseline state. -/
def sOffline : ModuleState := { sBase with isOnline := false }

/-- C8 witness: a concrete offline pass: no network events, the dashboard
document is queued, the upload returns `false`, the download returns
`null`, both report `offline`. -/
theorem offline_no_network_witness :
    ((uploadState sOffline envBase .dashboard).2.2.filter SyncEvent.isNet)
      = [] ∧
    (uploadState sOffline envBase .dashboard).1 = false ∧
    (uploadState sOffline envBase .dashboard).2.1.offlineQueue
      = queueOfflineOperation sOffline.offlineQueue .dashboard docOwner
          sOffline.now ∧
    (downloadState sOffline envBase .dashboard).1 = none ∧
    (downloadState sOffline envBase .dashboard).2.1.status = .offline := by
  have h := offline_no_network sOffline envBase (by decide)
  have h2 := h.2.1 .dashboard docOwner (by decide) (by decide) (by decide)
    (by decide) (by decide)
  have h3 := h.2.2 .dashboard (by decide) (by decide)
  exact ⟨(h.1 .dashboard).1, h2.1, h2.2.1, h3.1, h3.2.1⟩

/-- Helper: the replay loop of `processOfflineQueue` depends only on the
types of the entries it replays — the captured `state` and `timestamp` of
an entry are never consulted. -/
theorem replayLoop_types_only (env : Env) :
    ∀ (q1 : List QueueEntry) (s : ModuleState) (q2 : List QueueEntry),
      q1.map QueueEntry.type = q2.map QueueEntry.type →
      replayLoop env s q1 = replayLoop env s q2 := by
  intro q1
  induction q1 with
  | nil =>
    intro s q2 h
    cases q2 with
    | nil => rfl
    | cons a b => simp at h
  | cons op rest ih =>
    intro s q2 h
    cases q2 with
    | nil => simp at h
    | cons op2 rest2 =>
      simp at h
      obtain ⟨hty, hrest⟩ := h
      rw [replayLoop, replayLoop, hty]
      rcases hu : uploadState s env op2.type with ⟨b, s', evs⟩
      dsimp only
      rw [ih s' rest2 hrest]

/-- C9: the state snapshot captured in a queue entry is ignored by the
replay.  Replacing the snapshots (and timestamps) of the queued entries by
anything with the same types leaves the entire replay — result state and
trace — unchanged; and for a single queued notebook entry the document
actually uploaded is the live `api.getState()` state read at replay time
(freshly stamped), not the captured snapshot. -/
theorem processOfflineQueue_ignores_snapshot (s : ModuleState) (env : Env)
    (q2 : List QueueEntry)
    (hen : s.syncSettings.enabled = true)
    (hne : s.offlineQueue ≠ [])
    (hty : s.offlineQueue.map QueueEntry.type = q2.map QueueEntry.type) :
    processOfflineQueue { s with offlineQueue := q2 } env
      = processOfflineQueue s env ∧
    (∀ op d, s.offlineQueue = [op] → op.type = .notebook →
      s.isOnline = true → s.isSyncing = false →
      SYNC_COOLDOWN_MS ≤ s.now - s.lastSyncAttempt →
      env.stateReadThrows = false → env.apiPresent = true →
      s.onNotebookPage = true → env.getStateResult = some d →
      (processOfflineQueue s env).2
        = [.netFind .notebook,
           .netUpload .notebook (addSyncMeta d s.now)]) := by
  constructor
  · have hne2 : q2 ≠ [] := by
      intro hq
      rw [hq] at hty
      simp at hty
      exact hne hty
    rw [processOfflineQueue, processOfflineQueue]
    simp only [hen]
    rw [if_neg (by simp [hne2]), if_neg (by simp [hne])]
    exact replayLoop_types_only env q2 _ s.offlineQueue hty.symm
  · intro op d hq hop hon hsy hcd hsr hapi hnb hgs
    have hcd2 : ¬(s.now - s.lastSyncAttempt < SYNC_COOLDOWN_MS) :=
      not_lt.mpr hcd
    rw [processOfflineQueue]
    rw [if_neg (by simp [hq, hen])]
    rw [hq, replayLoop]
    simp only [hop]
    rw [uploadState]
    simp only [hen, hsy, hsr, hon, hcd2, hapi, hnb, hgs]
    cases huf : env.uploadFails .notebook
    · rw [uploadStateCore_ok _ _ _ _ huf]
      simp [replayLoop]
    · rw [uploadStateCore_fail _ _ _ _ huf]
      simp [replayLoop]

/-- Queue fixture for the snapshot-independence claim: one pending
notebook entry whose snapshot differs from the live API state. -/
def sQueue : ModuleState :=
  { sBase with
    offlineQueue := [⟨.notebook, ⟨"stale-snapshot", some ⟨50, "1.0.0"⟩⟩, 50⟩],
    onNotebookPage := true }

/-- C9 witness: swapping the captured snapshot for a completely different
one changes nothing, and the concrete replay uploads the live state
`"live"` stamped at the replay clock — not the snapshot. -/
theorem processOfflineQueue_ignores_snapshot_witness :
    processOfflineQueue
        { sQueue with
          offlineQueue := [⟨.notebook, ⟨"other", none⟩, 99⟩] } envBase
      = processOfflineQueue sQueue envBase ∧
    (processOfflineQueue sQueue envBase).2
      = [.netFind .notebook,
         .netUpload .notebook
           (addSyncMeta ⟨"live", some ⟨400, "1.0.0"⟩⟩ 100000)] := by
  have h := processOfflineQueue_ignores_snapshot sQueue envBase
    [⟨.notebook, ⟨"other", none⟩, 99⟩] (by decide) (by decide) (by decide)
  exact ⟨h.1,
    h.2 ⟨.notebook, ⟨"stale-snapshot", some ⟨50, "1.0.0"⟩⟩, 50⟩
      ⟨"live", some ⟨400, "1.0.0"⟩⟩ rfl rfl (by decide) (by decide)
      (by decide) (by decide) (by decide) (by decide) rfl⟩

/-! ## Settings preservation

No sync operation ever flips the `enabled` flag: the in-memory flag is
mutated only by `enableSync`/`disableSync`, and the persisted copy is only
ever overwritten with the in-memory settings by `saveSyncSettings`. -/

/-- The state carried by a reconciliation step outcome. -/
def StepResult.state : StepResult → ModuleState
  | .cont s _ => s
  | .early _ s _ => s
  | .thrown s _ => s

/-- From `a` to `b`, the in-memory `enabled` flag is unchanged and the
persisted `enabled` flag is either untouched or overwritten with the
in-memory one. -/
def settingsInv (a b : ModuleState) : Prop :=
  b.syncSettings.enabled = a.syncSettings.enabled ∧
  (b.persistedSettings.enabled = a.persistedSettings.enabled ∨
   b.persistedSettings.enabled = a.syncSettings.enabled)

theorem settingsInv_trans {a b c : ModuleState}
    (h1 : settingsInv a b) (h2 : settingsInv b c) : settingsInv a c := by
  obtain ⟨e1, p1⟩ := h1
  obtain ⟨e2, p2⟩ := h2
  refine ⟨e2.trans e1, ?_⟩
  rcases p2 with h | h
  · rcases p1 with h' | h'
    · exact Or.inl (h.trans h')
    · exact Or.inr (h.trans h')
  · exact Or.inr (h.trans e1)

theorem uploadStateCore_settingsInv (s : ModuleState) (env : Env)
    (t : DocType) (st : Doc) :
    settingsInv s (uploadStateCore s env t st).2.1 := by
  cases h : env.uploadFails t
  · rw [settingsInv, uploadStateCore_ok _ _ _ _ h, saveSyncSettings]
    cases t <;> split <;> simp [ModuleState.setRemote]
  · rw [uploadStateCore_fail _ _ _ _ h]
    exact ⟨rfl, Or.inl rfl⟩

theorem uploadState_settingsInv (s : ModuleState) (env : Env)
    (t : DocType) :
    settingsInv s (uploadState s env t).2.1 := by
  rw [uploadState]
  simp only []
  repeat' split
  all_goals first
    | exact ⟨rfl, Or.inl rfl⟩
    | exact uploadStateCore_settingsInv _ _ _ _

theorem downloadState_settings (s : ModuleState) (env : Env) (t : DocType) :
    (downloadState s env t).2.1.syncSettings = s.syncSettings ∧
    (downloadState s env t).2.1.persistedSettings = s.persistedSettings := by
  rw [downloadState]
  simp only []
  repeat' split
  all_goals exact ⟨rfl, rfl⟩

theorem dashReconcile_settings (s : ModuleState) (env : Env)
    (d : Option (Doc × Option SyncMeta)) :
    (dashReconcile s env d).state.syncSettings = s.syncSettings ∧
    (dashReconcile s env d).state.persistedSettings = s.persistedSettings := by
  unfold dashReconcile
  repeat' split
  all_goals simp [StepResult.state]

theorem nbReconcile_settingsInv (s : ModuleState) (env : Env)
    (n : Option (Doc × Option SyncMeta)) :
    settingsInv s (nbReconcile s env n).state := by
  unfold nbReconcile
  cases n with
  | none => exact ⟨rfl, Or.inl rfl⟩
  | some p =>
    rcases p with ⟨data, meta⟩
    dsimp only
    split
    · split
      · exact ⟨rfl, Or.inl rfl⟩
      · split
        · split
          · exact ⟨rfl, Or.inl rfl⟩
          · exact ⟨rfl, Or.inl rfl⟩
          · exact ⟨rfl, Or.inl rfl⟩
        · exact ⟨rfl, Or.inl rfl⟩
    · split
      · rcases hu : uploadState s env .notebook with ⟨b, s1, evs⟩
        dsimp only
        have h := uploadState_settingsInv s env .notebook
        rw [hu] at h
        simpa [StepResult.state] using h
      · exact ⟨rfl, Or.inl rfl⟩

theorem fullSyncFinish_settingsInv (s : ModuleState) (env : Env)
    (evs : List SyncEvent) :
    settingsInv s (fullSyncFinish s env evs).2.1 := by
  rw [settingsInv, fullSyncFinish, saveSyncSettings]
  split <;> simp

/-- Helper: one full sync pass never changes the in-memory `enabled` flag
and only ever copies it into the persisted settings. -/
theorem performFullSync_settingsInv (s : ModuleState) (env : Env) :
    settingsInv s (performFullSync s env).2.1 := by
  rw [performFullSync]
  split
  · exact ⟨rfl, Or.inl rfl⟩
  split
  · exact ⟨rfl, Or.inl rfl⟩
  dsimp only
  rcases hd : downloadState { s with status := .syncing, statusMsg := "" }
      env .dashboard with ⟨dres, s2, evA⟩
  have hds := downloadState_settings
    { s with status := .syncing, statusMsg := "" } env .dashboard
  rw [hd] at hds
  have hinv2 : settingsInv s s2 :=
    ⟨by rw [hds.1], Or.inl (by rw [hds.2])⟩
  dsimp only
  split
  · rename_i s3 evB hdr
    have hrs := dashReconcile_settings s2 env dres
    rw [hdr] at hrs
    simp only [StepResult.state] at hrs
    exact settingsInv_trans
      (settingsInv_trans hinv2 ⟨by rw [hrs.1], Or.inl (by rw [hrs.2])⟩)
      ⟨rfl, Or.inl rfl⟩
  · rename_i r s3 evB hdr
    have hrs := dashReconcile_settings s2 env dres
    rw [hdr] at hrs
    simp only [StepResult.state] at hrs
    exact settingsInv_trans hinv2 ⟨by rw [hrs.1], Or.inl (by rw [hrs.2])⟩
  · rename_i s3 evB hdr
    have hrs := dashReconcile_settings s2 env dres
    rw [hdr] at hrs
    simp only [StepResult.state] at hrs
    have hinv3 : settingsInv s s3 :=
      settingsInv_trans hinv2 ⟨by rw [hrs.1], Or.inl (by rw [hrs.2])⟩
    split
    · rcases hn : downloadState s3 env .notebook with ⟨nres, s4, evC⟩
      have hns := downloadState_settings s3 env .notebook
      rw [hn] at hns
      have hinv4 : settingsInv s s4 :=
        settingsInv_trans hinv3 ⟨by rw [hns.1], Or.inl (by rw [hns.2])⟩
      dsimp only
      split
      · rename_i s5 evD hnr
        have hnrs := nbReconcile_settingsInv s4 env nres
        rw [hnr] at hnrs
        simp only [StepResult.state] at hnrs
        exact settingsInv_trans (settingsInv_trans hinv4 hnrs)
          ⟨rfl, Or.inl rfl⟩
      · rename_i r s5 evD hnr
        have hnrs := nbReconcile_settingsInv s4 env nres
        rw [hnr] at hnrs
        simp only [StepResult.state] at hnrs
        exact settingsInv_trans hinv4 hnrs
      · rename_i s5 evD hnr
        have hnrs := nbReconcile_settingsInv s4 env nres
        rw [hnr] at hnrs
        simp only [StepResult.state] at hnrs
        exact settingsInv_trans (settingsInv_trans hinv4 hnrs)
          (fullSyncFinish_settingsInv s5 env _)
    · exact settingsInv_trans hinv3 (fullSyncFinish_settingsInv s3 env _)

/-- A disabled starting state with a remote dashboard strictly newer than
the local one. -/
def sDisabled : ModuleState :=
  { sBase with
    syncSettings := ⟨false, none, true⟩,
    persistedSettings := ⟨false, none, true⟩,
    localDashboard := some ⟨"local", some ⟨100, "1.0.0"⟩⟩,
    remoteDashboard := some ⟨"remote", some ⟨200, "1.0.0"⟩⟩ }

/-- Environment in which the in-place apply of the dashboard throws, so
the initial full sync pass of `enableSync` fails with status `error`. -/
def envApplyThrows : Env := { envBase with applyDashboard := .thrown }

/-- Environment whose broker never yields a token. -/
def envNoToken : Env := { envBase with broker := fun _ => none }

/-- C4 counterexample: token acquisition succeeds but the initial full
synchronization pass fails (the apply callback throws, the pass returns
with status `error`); `enableSync` nevertheless returns `true` and both
the in-memory and the persisted settings end with `enabled = true` — the
claim that a failed sync step leaves the persisted settings at
`{enabled: false}` is false at this input. -/
theorem enableSync_enabled_despite_failed_sync_cex :
    sDisabled.persistedSettings.enabled = false ∧
    (enableSync sDisabled envApplyThrows).1 = true ∧
    (enableSync sDisabled envApplyThrows).2.1.status = .error ∧
    (enableSync sDisabled envApplyThrows).2.1.syncSettings.enabled = true ∧
    (enableSync sDisabled envApplyThrows).2.1.persistedSettings.enabled
      = true := by
  decide

/-- C4 amended: `enableSync` reaches the enabled state after a successful
interactive token acquisition alone.  If the token acquisition fails, the
system stays disabled exactly as claimed: settings (in-memory and
persisted) are untouched, nothing is uploaded (no events at all), and an
`error` status with message `Authentication failed` is surfaced.  If the
token is acquired, `enabled = true` is set and persisted before the
initial full sync pass runs, and the outcome of that pass — success or
failure — cannot revert it. -/
theorem enableSync_amended (s : ModuleState) (env : Env) :
    (env.broker true = none →
      (enableSync s env).1 = false ∧
      (enableSync s env).2.1.syncSettings = s.syncSettings ∧
      (enableSync s env).2.1.persistedSettings = s.persistedSettings ∧
      (enableSync s env).2.2 = [] ∧
      (enableSync s env).2.1.status = .error ∧
      (enableSync s env).2.1.statusMsg = "Authentication failed") ∧
    (∀ tok, env.broker true = some tok →
      (enableSync s env).1 = true ∧
      (enableSync s env).2.1.syncSettings.enabled = true ∧
      (env.contextValid = true →
        (enableSync s env).2.1.persistedSettings.enabled = true)) := by
  constructor
  · intro hb
    simp [enableSync, hb]
  · intro tok hb
    rw [enableSync]
    simp only [hb]
    have h := performFullSync_settingsInv (saveSyncSettings
      { s with status := .syncing, statusMsg := "",
               cachedToken := some tok,
               syncSettings := { s.syncSettings with enabled := true } }
      env) env
    refine ⟨trivial, ?_, ?_⟩
    · by_cases hcv : env.contextValid = true
      · rw [saveSyncSettings, if_pos hcv] at h ⊢
        exact h.1
      · rw [saveSyncSettings, if_neg hcv] at h ⊢
        exact h.1
    · intro hcv
      rw [saveSyncSettings, if_pos hcv] at h ⊢
      rcases h.2 with h2 | h2 <;> exact h2

/-- C4 amended witness: with no token the concrete enable fails and leaves
the disabled settings untouched; with a token it enables and persists the
flag. -/
theorem enableSync_amended_witness :
    (enableSync sDisabled envNoToken).1 = false ∧
    (enableSync sDisabled envNoToken).2.1.syncSettings
      = sDisabled.syncSettings ∧
    (enableSync sDisabled envBase).1 = true ∧
    (enableSync sDisabled envBase).2.1.persistedSettings.enabled = true := by
  have h1 := (enableSync_amended sDisabled envNoToken).1 rfl
  have h2 := (enableSync_amended sDisabled envBase).2 "tok" rfl
  exact ⟨h1.1, h1.2.1, h2.1, h2.2.2 rfl⟩

/-- Helper: characterization of a fully successful `downloadState`. -/
theorem downloadState_ok (s : ModuleState) (env : Env) (t : DocType)
    (doc : Doc)
    (hen : s.syncSettings.enabled = true) (hsy : s.isSyncing = false)
    (hon : s.isOnline = true)
    (hpage : t = .notebook → s.onNotebookPage = true)
    (hff : env.findFails t = false)
    (hdf : env.downloadFails t = false)
    (hdoc : s.getRemote t = some doc) :
    downloadState s env t
      = (some (doc, doc.syncMeta),
         { s with isSyncing := false, status := .success, statusMsg := "" },
         [.netFind t, .netDownload t]) := by
  cases t with
  | dashboard =>
    simp only [ModuleState.getRemote] at hdoc
    simp only [Env.findFails] at hff
    simp only [Env.downloadFails] at hdf
    rw [downloadState]
    simp only [hen, hsy, hon, findFile, downloadFile, Env.findFails,
      Env.downloadFails, ModuleState.getRemote, hff, hdf, hdoc]
    simp
  | notebook =>
    have hnb : s.onNotebookPage = true := hpage rfl
    simp only [ModuleState.getRemote] at hdoc
    simp only [Env.findFails] at hff
    simp only [Env.downloadFails] at hdf
    rw [downloadState]
    simp only [hen, hsy, hon, hnb, findFile, downloadFile, Env.findFails,
      Env.downloadFails, ModuleState.getRemote, hff, hdf, hdoc]
    simp

/-- Helper: characterization of a fully successful notebook upload. -/
theorem uploadState_notebook_ok (s : ModuleState) (env : Env) (nst : Doc)
    (hen : s.syncSettings.enabled = true) (hsy : s.isSyncing = false)
    (hcd : SYNC_COOLDOWN_MS ≤ s.now - s.lastSyncAttempt)
    (hsr : env.stateReadThrows = false)
    (hon : s.isOnline = true)
    (hapi : env.apiPresent = true)
    (hnb : s.onNotebookPage = true)
    (hgs : env.getStateResult = some nst)
    (hufn : env.uploadFails .notebook = false)
    (hcv : env.contextValid = true) :
    uploadState s env .notebook
      = (true,
         { s with
           syncSettings :=
             { s.syncSettings with lastSyncTime := some s.now },
           persistedSettings :=
             { s.syncSettings with lastSyncTime := some s.now },
           isSyncing := false,
           lastSyncAttempt := s.now,
           remoteNotebook := some (addSyncMeta nst s.now),
           status := .success, statusMsg := "" },
         [.netFind .notebook,
          .netUpload .notebook (addSyncMeta nst s.now)]) := by
  have hcd2 : ¬(s.now - s.lastSyncAttempt < SYNC_COOLDOWN_MS) :=
    not_lt.mpr hcd
  rw [uploadState]
  simp only [hen, hsy, hsr, hon, hapi, hnb, hgs, hcd2]
  rw [uploadStateCore_ok _ _ _ _ hufn]
  simp [ModuleState.setRemote, saveSyncSettings, hcv, hen]

/-- C1 amended: last-write-wins reconciliation in a full sync pass, as
the code implements it (stated under the pass's own guards: enabled, not
syncing, online, valid context, cooldown elapsed, API present with
applyState available and succeeding, no transport failures, both remote
documents present, on a notebook page).  For the NOTEBOOK document the
claim's three-way contract holds: remote strictly newer is applied
locally; local strictly newer is uploaded (the live API state freshly
stamped); equal envelopes change neither store.  For the DASHBOARD the
pass is one-sided: remote strictly newer is applied, but when the local
envelope is newer or equal nothing happens — in particular a strictly
newer local dashboard is NOT uploaded (the source has no such branch) and
both dashboard stores are left unchanged. -/
theorem performFullSync_lastWriteWins_amended
    (s : ModuleState) (env : Env) (rd rn nst : Doc)
    (hen : s.syncSettings.enabled = true)
    (hsy : s.isSyncing = false)
    (hon : s.isOnline = true)
    (hcv : env.contextValid = true)
    (hapi : env.apiPresent = true)
    (hav : env.applyStateAvail = true)
    (had : env.applyDashboard = .applied)
    (han : env.applyNotebook = .applied)
    (hffd : env.findFailsDashboard = false)
    (hffn : env.findFailsNotebook = false)
    (hdfd : env.downloadFailsDashboard = false)
    (hdfn : env.downloadFailsNotebook = false)
    (hufn : env.uploadFailsNotebook = false)
    (hsr : env.stateReadThrows = false)
    (hrd : s.remoteDashboard = some rd)
    (hrn : s.remoteNotebook = some rn)
    (hnb : s.onNotebookPage = true)
    (hgs : env.getStateResult = some nst)
    (hcd : SYNC_COOLDOWN_MS ≤ s.now - s.lastSyncAttempt) :
    (metaTime rd.syncMeta > envelopeTime s.localDashboard →
      SyncEvent.applyLocal .dashboard rd ∈ (performFullSync s env).2.2) ∧
    (metaTime rd.syncMeta ≤ envelopeTime s.localDashboard →
      (performFullSync s env).2.1.localDashboard = s.localDashboard ∧
      (performFullSync s env).2.1.remoteDashboard = some rd ∧
      (∀ c, SyncEvent.netUpload .dashboard c ∉ (performFullSync s env).2.2)) ∧
    (metaTime rn.syncMeta > envelopeTime s.localNotebook →
      SyncEvent.applyLocal .notebook rn ∈ (performFullSync s env).2.2 ∧
      (performFullSync s env).2.1.localNotebook = some rn) ∧
    (envelopeTime s.localNotebook > metaTime rn.syncMeta →
      (performFullSync s env).2.1.remoteNotebook
        = some (addSyncMeta nst s.now) ∧
      SyncEvent.netUpload .notebook (addSyncMeta nst s.now)
        ∈ (performFullSync s env).2.2) ∧
    (envelopeTime s.localNotebook = metaTime rn.syncMeta →
      (performFullSync s env).2.1.localNotebook = s.localNotebook ∧
      (performFullSync s env).2.1.remoteNotebook = some rn ∧
      SyncEvent.applyLocal .notebook rn ∉ (performFullSync s env).2.2 ∧
      (∀ c, SyncEvent.netUpload .notebook c ∉ (performFullSync s env).2.2)) := by
  have hdl := downloadState_ok { s with status := .syncing, statusMsg := "" }
    env .dashboard rd hen hsy hon (fun h => DocType.noConfusion h) hffd hdfd hrd
  have hdl2 := downloadState_ok
    { s with isSyncing := false, status := .success, statusMsg := "" }
    env .notebook rn hen rfl hon (fun _ => hnb) hffn hdfn hrn
  rw [performFullSync]
  rw [if_neg (by simp [hen]), if_neg (by simp [hcv])]
  try dsimp only
  rw [hdl]
  try dsimp only
  unfold dashReconcile
  try dsimp only
  by_cases hd : metaTime rd.syncMeta > envelopeTime s.localDashboard
  · rw [if_pos hd]
    simp only [hapi, hav, had]
    try dsimp only
    rw [if_pos ⟨trivial, trivial⟩]
    try dsimp only
    rw [if_pos hnb]
    rw [hdl2]
    try dsimp only
    unfold nbReconcile
    try dsimp only
    rcases lt_trichotomy (envelopeTime s.localNotebook) (metaTime rn.syncMeta)
      with hn | hn | hn
    · rw [if_pos hn]
      rw [if_neg (by simp [hcv])]
      simp only [hapi, hav, han]
      rw [if_pos ⟨trivial, trivial⟩]
      try dsimp only
      unfold fullSyncFinish
      simp only [saveSyncSettings, hcv, if_pos]
      try dsimp only
      refine ⟨fun h => ?_, fun h => ?_, fun h => ?_, fun h => ?_,
        fun h => ?_⟩
      all_goals first
        | exact absurd h (by omega)
        | (repeat' constructor
           all_goals first
             | rfl
             | trivial
             | simp [hrd, hrn]
             | (intro c; simp))
    · rw [if_neg (by omega), if_neg (by omega)]
      try dsimp only
      unfold fullSyncFinish
      simp only [saveSyncSettings, hcv, if_pos]
      try dsimp only
      refine ⟨fun h => ?_, fun h => ?_, fun h => ?_, fun h => ?_,
        fun h => ?_⟩
      all_goals first
        | exact absurd h (by omega)
        | (repeat' constructor
           all_goals first
             | rfl
             | trivial
             | simp [hrd, hrn]
             | (intro c; simp))
    · rw [if_neg (by omega), if_pos hn]
      have hup := uploadState_notebook_ok
        { s with isSyncing := false, status := .success, statusMsg := "" }
        env nst hen rfl hcd hsr hon hapi hnb hgs hufn hcv
      rw [hup]
      try dsimp only
      unfold fullSyncFinish
      simp only [saveSyncSettings, hcv, if_pos]
      try dsimp only
      refine ⟨fun h => ?_, fun h => ?_, fun h => ?_, fun h => ?_,
        fun h => ?_⟩
      all_goals first
        | exact absurd h (by omega)
        | (repeat' constructor
           all_goals first
             | rfl
             | trivial
             | simp [hrd, hrn]
             | (intro c; simp))
  · rw [if_neg hd]
    try dsimp only
    rw [if_pos hnb]
    rw [hdl2]
    try dsimp only
    unfold nbReconcile
    try dsimp only
    rcases lt_trichotomy (envelopeTime s.localNotebook) (metaTime rn.syncMeta)
      with hn | hn | hn
    · rw [if_pos hn]
      rw [if_neg (by simp [hcv])]
      simp only [hapi, hav, han]
      rw [if_pos ⟨trivial, trivial⟩]
      try dsimp only
      unfold fullSyncFinish
      simp only [saveSyncSettings, hcv, if_pos]
      try dsimp only
      refine ⟨fun h => ?_, fun h => ?_, fun h => ?_, fun h => ?_,
        fun h => ?_⟩
      all_goals first
        | exact absurd h (by omega)
        | (repeat' constructor
           all_goals first
             | rfl
             | trivial
             | simp [hrd, hrn]
             | (intro c; simp))
    · rw [if_neg (by omega), if_neg (by omega)]
      try dsimp only
      unfold fullSyncFinish
      simp only [saveSyncSettings, hcv, if_pos]
      try dsimp only
      refine ⟨fun h => ?_, fun h => ?_, fun h => ?_, fun h => ?_,
        fun h => ?_⟩
      all_goals first
        | exact absurd h (by omega)
        | (repeat' constructor
           all_goals first
             | rfl
             | trivial
             | simp [hrd, hrn]
             | (intro c; simp))
    · rw [if_neg (by omega), if_pos hn]
      have hup := uploadState_notebook_ok
        { s with isSyncing := false, status := .success, statusMsg := "" }
        env nst hen rfl hcd hsr hon hapi hnb hgs hufn hcv
      rw [hup]
      try dsimp only
      unfold fullSyncFinish
      simp only [saveSyncSettings, hcv, if_pos]
      try dsimp only
      refine ⟨fun h => ?_, fun h => ?_, fun h => ?_, fun h => ?_,
        fun h => ?_⟩
      all_goals first
        | exact absurd h (by omega)
        | (repeat' constructor
           all_goals first
             | rfl
             | trivial
             | simp [hrd, hrn]
             | (intro c; simp))

/-- Dashboard-only fixture: local envelope 300, remote envelope 150 —
by the claim, the local dashboard should be uploaded. -/
def sDashLocalNewer : ModuleState :=
  { sBase with
    localDashboard := some ⟨"local", some ⟨300, "1.0.0"⟩⟩,
    remoteDashboard := some ⟨"remote", some ⟨150, "1.0.0"⟩⟩ }

/-- C1 counterexample: with the local dashboard strictly newer (300 >
150), a full sync pass completes successfully, makes no upload network
call at all, and leaves the remote dashboard unchanged at envelope 150 —
the claim's "if the local lastModified is strictly greater, the local
payload is uploaded to the remote store" is false for the dashboard
document. -/
theorem performFullSync_dashboard_no_upload_cex :
    envelopeTime sDashLocalNewer.localDashboard = 300 ∧
    envelopeTime sDashLocalNewer.remoteDashboard = 150 ∧
    (performFullSync sDashLocalNewer envBase).1 = true ∧
    (performFullSync sDashLocalNewer envBase).2.2
      = [.netFind .dashboard, .netDownload .dashboard] ∧
    (performFullSync sDashLocalNewer envBase).2.1.remoteDashboard
      = some ⟨"remote", some ⟨150, "1.0.0"⟩⟩ ∧
    (performFullSync sDashLocalNewer envBase).2.1.localDashboard
      = some ⟨"local", some ⟨300, "1.0.0"⟩⟩ := by
  decide

/-- Fixture with both documents present: locals stamped 300, remotes 150,
on a notebook page with live API state. -/
def sFull : ModuleState :=
  { sBase with
    localDashboard := some ⟨"ldash", some ⟨300, "1.0.0"⟩⟩,
    remoteDashboard := some ⟨"rdash", some ⟨150, "1.0.0"⟩⟩,
    localNotebook := some ⟨"lnb", some ⟨300, "1.0.0"⟩⟩,
    remoteNotebook := some ⟨"rnb", some ⟨150, "1.0.0"⟩⟩,
    onNotebookPage := true }

/-- C1 amended witness: at the concrete fixture the locally-newer
dashboard is left alone on both stores while the locally-newer notebook
is uploaded (live state stamped at the pass clock). -/
theorem performFullSync_lastWriteWins_amended_witness :
    (performFullSync sFull envBase).2.1.remoteDashboard
      = some ⟨"rdash", some ⟨150, "1.0.0"⟩⟩ ∧
    (performFullSync sFull envBase).2.1.remoteNotebook
      = some (addSyncMeta ⟨"live", some ⟨400, "1.0.0"⟩⟩ 100000) ∧
    SyncEvent.netUpload .notebook
        (addSyncMeta ⟨"live", some ⟨400, "1.0.0"⟩⟩ 100000)
      ∈ (performFullSync sFull envBase).2.2 := by
  have h := performFullSync_lastWriteWins_amended sFull envBase
    ⟨"rdash", some ⟨150, "1.0.0"⟩⟩ ⟨"rnb", some ⟨150, "1.0.0"⟩⟩
    ⟨"live", some ⟨400, "1.0.0"⟩⟩
    rfl rfl rfl rfl rfl rfl rfl rfl rfl rfl rfl rfl rfl rfl rfl rfl rfl
    rfl (by decide)
  exact ⟨(h.2.1 (by decide)).2.1, (h.2.2.2.1 (by decide)).1,
         (h.2.2.2.1 (by decide)).2⟩
